import Mathlib

/-!
# SunPath binary solar-data generator — verification development

Shallow embedding of `generate_solar_data.py`:

* `write_binary` embeds the binary writer (header + interleaved
  float32 payload).  IEEE-754 binary32 values are modelled by their 32-bit
  bit patterns (`Nat < 2^32`); `struct.pack` range checks are modelled by
  `Option`-valued packers, and a pack failure mid-write (a raised
  `struct.error`) leaves exactly the bytes written so far at the final
  output path, mirroring the script's direct `open(path, "wb")`.
* `compute_solar_positions` embeds the time-index construction
  (`pd.date_range(start, end, freq="1min")` over timezone-aware endpoints):
  the generated samples are one per *absolute* minute from the localized
  start instant to the localized end instant.  A timezone is modelled as a
  pair of functions (wall-clock localization for unambiguous instants, and
  the UTC-offset in force at an absolute minute); `nyTz2025` instantiates
  the America/New_York rules for 2025.  The external pvlib position
  function is an opaque parameter returning `Option` (none = raised
  exception).
* `decode` is modelled from the spec (§4.2): the reading side
  (SolarDataLoader.cs / SolarDataPreprocessor.cs) is not part of the
  sources here.
-/

namespace SunPath

/-- The four ASCII bytes of the magic constant `b"SLRD"`. -/
def MAGIC : List Nat := [83, 76, 82, 68]

/-- Format version constant (`VERSION = 1`). -/
def VERSION : Int := 1

/-- Minutes per day constant (`MINUTES_PER_DAY = 1440`). -/
def MINUTES_PER_DAY : Nat := 1440

/-- Embedding of `calendar.isleap(year)`: divisible by 4 and (not by 100 or by 400). -/
def isleap (year : Int) : Bool :=
  year % 4 == 0 && (year % 100 != 0 || year % 400 == 0)

/-- Number of days of a calendar year (366 if leap else 365). -/
def daysInYear (year : Int) : Nat :=
  if isleap year then 366 else 365

/-- Little-endian bytes of a 16-bit unsigned value (`u < 2^16`). -/
def toLEBytes2 (u : Nat) : List Nat :=
  [u % 256, u / 256 % 256]

/-- Little-endian bytes of a 32-bit unsigned value (`u < 2^32`). -/
def toLEBytes4 (u : Nat) : List Nat :=
  [u % 256, u / 256 % 256, u / 65536 % 256, u / 16777216 % 256]

/-- Embedding of `struct.pack("<h", y)`: two little-endian bytes of the twos-complement
16-bit representation, or failure (`struct.error`) when `y` is outside
the signed 16-bit range. -/
def packInt16LE (y : Int) : Option (List Nat) :=
  if -32768 ≤ y ∧ y ≤ 32767 then some (toLEBytes2 ((y % 65536).toNat)) else none

/-- Embedding of `struct.pack("<i", y)`: four little-endian bytes of the twos-complement
32-bit representation, or failure when outside the signed 32-bit range. -/
def packInt32LE (y : Int) : Option (List Nat) :=
  if -2147483648 ≤ y ∧ y ≤ 2147483647 then
    some (toLEBytes4 ((y % 4294967296).toNat))
  else none

/-- One generated sample: the IEEE-754 binary32 bit patterns of the azimuth
and apparent-elevation values (the script's `.astype(np.float32)` result). -/
structure PositionSample where
  azimuth : Nat
  elevation : Nat
deriving DecidableEq, Repr

/-- The 8 payload bytes of one sample: float32 azimuth then float32
elevation, both little-endian. -/
def recordBytes (s : PositionSample) : List Nat :=
  toLEBytes4 s.azimuth ++ toLEBytes4 s.elevation

/-- The interleaved `[az0, el0, az1, el1, …]` byte stream written by
`f.write(interleaved.tobytes())`. -/
def payloadBytes : List PositionSample → List Nat
  | [] => []
  | s :: rest => recordBytes s ++ payloadBytes rest

/-- Outcome of one `write_binary` call.  `fileBytes` is the byte content
left at the final output path (the script opens that path directly);
`completed` is false when a `struct.error` aborted the write mid-way;
`warned` records whether the size-mismatch warning was printed. -/
structure WriteResult where
  fileBytes : List Nat
  completed : Bool
  warned : Bool
deriving DecidableEq, Repr

/-- Embedding of `write_binary(df, path, year)`: header writes in source
order (magic, version, year, expected count, reserved) followed by the
interleaved payload; a failing `struct.pack` stops the write with the
bytes emitted so far on disk. -/
def write_binary (df : List PositionSample) (year : Int) : WriteResult :=
  let expected := daysInYear year * MINUTES_PER_DAY
  match packInt16LE VERSION with
  | none => ⟨MAGIC, false, false⟩
  | some verB =>
    match packInt16LE year with
    | none => ⟨MAGIC ++ verB, false, false⟩
    | some yearB =>
      match packInt32LE (expected : Int) with
      | none => ⟨MAGIC ++ verB ++ yearB, false, false⟩
      | some cntB =>
        match packInt32LE 0 with
        | none => ⟨MAGIC ++ verB ++ yearB ++ cntB, false, false⟩
        | some resB =>
          ⟨MAGIC ++ verB ++ yearB ++ cntB ++ resB ++ payloadBytes df,
           true, df.length != expected⟩

/-- A timezone rule, as the generator consumes it.  All instants are
measured in minutes; the common origin is the naive local wall-clock
midnight of January 1 of the generated year.  `utcOfWall` is
`tz_localize` for an (unambiguous) naive wall-clock minute — the absolute
minute it denotes; `offsetAt` is the UTC offset (in minutes, negative
west of Greenwich) in force at an absolute minute. -/
structure Timezone where
  utcOfWall : Int → Int
  offsetAt : Int → Int

/-- Naive wall-clock minute of `Dec 31, 23:59` of the year
(`(daysInYear year) * 1440 - 1`; minute 0 is Jan 1, 00:00). -/
def wallEnd (year : Int) : Int :=
  (daysInYear year : Int) * 1440 - 1

/-- Absolute minute of the localized range start
`pd.Timestamp(f"{year}-01-01", tz=timezone)`. -/
def startUtc (tz : Timezone) (_year : Int) : Int :=
  tz.utcOfWall 0

/-- Absolute minute of the localized range end
`pd.Timestamp(f"{year}-12-31 23:59:00", tz=timezone)`. -/
def stopUtc (tz : Timezone) (year : Int) : Int :=
  tz.utcOfWall (wallEnd year)

/-- Number of instants `pd.date_range(start, end, freq="1min")` yields:
one per absolute minute from start to end inclusive. -/
def numTimes (tz : Timezone) (year : Int) : Nat :=
  (stopUtc tz year - startUtc tz year + 1).toNat

/-- The `times` index of `compute_solar_positions`: evenly spaced absolute
minutes from the localized start to the localized end. -/
def seriesTimes (tz : Timezone) (year : Int) : List Int :=
  List.map (fun k : Nat => startUtc tz year + (k : Int)) (List.range (numTimes tz year))

/-- Local wall-clock minute (same origin) of an absolute minute. -/
def localMinute (tz : Timezone) (t : Int) : Int :=
  t + tz.offsetAt t

/-- 1-based day-of-year of an absolute minute, per local wall clock. -/
def dayOfYearOf (tz : Timezone) (t : Int) : Int :=
  localMinute tz t / 1440 + 1

/-- 0-based minute-of-day of an absolute minute, per local wall clock. -/
def minuteOfDayOf (tz : Timezone) (t : Int) : Int :=
  localMinute tz t % 1440

/-- The spec's positional index `(dayOfYear - 1) * 1440 + minuteOfDay` of
an absolute minute. -/
def wallIndexOf (tz : Timezone) (t : Int) : Int :=
  (dayOfYearOf tz t - 1) * 1440 + minuteOfDayOf tz t

/-- America/New_York rules for calendar year 2025 (an instance of the
`Timezone` parameter, from the IANA database): standard offset −300 min
(EST), daylight offset −240 min (EDT); DST begins Mar 9, 02:00 EST
(wall minute 96600, absolute minute 96900) and ends Nov 2, 02:00 EDT
(absolute minute 439560); wall minutes 96600–96659 do not exist and wall
minutes 439260–439319 denote two absolute minutes each (localization
here picks the earlier, matching January/December endpoints being
unambiguous standard time). -/
def nyTz2025 : Timezone where
  utcOfWall := fun w =>
    if w < 96600 then w + 300 else if w < 439260 then w + 240 else w + 300
  offsetAt := fun t =>
    if 96900 ≤ t ∧ t < 439560 then -240 else -300

/-- Fixed-offset UTC timezone (offset 0): localization is the identity. -/
def tzUTC : Timezone where
  utcOfWall := fun w => w
  offsetAt := fun _ => 0

/-- Degenerate one-instant timezone used to exercise the generator on a
single sample (`utcOfWall` constant, so start = stop). -/
def tzOne : Timezone where
  utcOfWall := fun _ => 0
  offsetAt := fun _ => 0

/-- Run an `Option`-valued per-instant position function over the whole
index; any failure (a raised exception in the external library)
propagates and aborts the whole computation with no result. -/
def mapSolar (g : Int → Option PositionSample) : List Int → Option (List PositionSample)
  | [] => some []
  | t :: ts =>
    match g t, mapSolar g ts with
    | some s, some rest => some (s :: rest)
    | _, _ => none

/-- Embedding of `compute_solar_positions(latitude, longitude, altitude,
timezone, year)`: builds the full-year 1-minute index and invokes the
external position function (`pvlib.solarposition.get_solarposition`,
opaque here) on every instant.  The source performs no validation of
latitude/longitude/altitude; they are forwarded untouched. -/
def compute_solar_positions (posFn : ℚ → ℚ → ℚ → Int → Option PositionSample)
    (lat lon alt : ℚ) (tz : Timezone) (year : Int) :
    Option (List PositionSample) :=
  mapSolar (fun t => posFn lat lon alt t) (seriesTimes tz year)

/-- One (city, year) job of `main`: compute the positions, then write the
binary file.  An exception in the computation aborts the job before any
file is opened. -/
def runJob (posFn : ℚ → ℚ → ℚ → Int → Option PositionSample)
    (lat lon alt : ℚ) (tz : Timezone) (year : Int) : Option WriteResult :=
  match compute_solar_positions posFn lat lon alt tz year with
  | none => none
  | some df => some (write_binary df year)

/-- Value of a little-endian 16-bit field read as a signed int16. -/
def int16OfBytes (a b : Nat) : Int :=
  let u := a + 256 * b
  if u < 32768 then (u : Int) else (u : Int) - 65536

/-- Value of a little-endian 32-bit field read as a signed int32. -/
def int32OfBytes (a b c d : Nat) : Int :=
  let u := a + 256 * b + 65536 * c + 16777216 * d
  if u < 2147483648 then (u : Int) else (u : Int) - 4294967296

/-- Decoded header fields. -/
structure SLRDHeader where
  version : Int
  year : Int
  totalSampleCount : Int
deriving DecidableEq, Repr

/-- Decode-time failure taxonomy (spec §4.2 / §7). -/
inductive DecodeError where
  | BadMagic
  | UnsupportedVersion
  | TruncatedFile
deriving DecidableEq, Repr

/-- Parse consecutive 8-byte records (float32 azimuth then float32
elevation, both little-endian) back into samples. -/
def parseRecords : List Nat → List PositionSample
  | a :: b :: c :: d :: e :: f :: g :: h :: rest =>
    ⟨a + 256 * b + 65536 * c + 16777216 * d,
     e + 256 * f + 65536 * g + 16777216 * h⟩ :: parseRecords rest
  | _ => []

/-- Modelled from the spec: the decoder (`decode(byte stream) -> (header
fields, PositionSeries)` of §4.2) — the reading side of the repository
(SolarDataLoader.cs / SolarDataPreprocessor.cs) is not among the sources.
Per the spec: `BadMagic` when the first 4 bytes are not `"SLRD"`;
`UnsupportedVersion` when the version field is not one this codec
understands (version 1); `TruncatedFile` when the payload after the
16-byte header is not a whole number of 8-byte records or does not match
`header.totalSampleCount × 8`; the reserved field is ignored, never
validated; no sample-value validation. -/
def decode (bytes : List Nat) :
    Except DecodeError (SLRDHeader × List PositionSample) :=
  match bytes with
  | m0 :: m1 :: m2 :: m3 :: rest =>
    if [m0, m1, m2, m3] ≠ MAGIC then .error .BadMagic
    else
      match rest with
      | v0 :: v1 :: y0 :: y1 :: c0 :: c1 :: c2 :: c3 :: _ :: _ :: _ :: _ :: payload =>
        let version := int16OfBytes v0 v1
        if version ≠ 1 then .error .UnsupportedVersion
        else
          let count := int32OfBytes c0 c1 c2 c3
          if (payload.length % 8 ≠ 0) ∨ ((payload.length : Int) ≠ count * 8) then
            .error .TruncatedFile
          else
            .ok (⟨version, int16OfBytes y0 y1, count⟩, parseRecords payload)
      | _ => .error .TruncatedFile
  | _ => .error .BadMagic

theorem daysInYear_eq (year : Int) :
    daysInYear year = 365 ∨ daysInYear year = 366 := by
  unfold daysInYear
  split <;> simp

theorem write_binary_eq (df : List PositionSample) (year : Int)
    (hy : -32768 ≤ year ∧ year ≤ 32767) :
    write_binary df year =
      ⟨MAGIC ++ [1, 0] ++ toLEBytes2 ((year % 65536).toNat) ++
         toLEBytes4 (daysInYear year * MINUTES_PER_DAY) ++ [0, 0, 0, 0] ++
         payloadBytes df,
       true, df.length != daysInYear year * MINUTES_PER_DAY⟩ := by
  have h1 : packInt16LE VERSION = some [1, 0] := by decide
  have h2 : packInt16LE year = some (toLEBytes2 ((year % 65536).toNat)) := by
    unfold packInt16LE
    exact if_pos hy
  have h3 : packInt32LE ((daysInYear year * MINUTES_PER_DAY : Nat) : Int) =
      some (toLEBytes4 (daysInYear year * MINUTES_PER_DAY)) := by
    rcases daysInYear_eq year with h | h <;> rw [h] <;> decide
  have h4 : packInt32LE 0 = some [0, 0, 0, 0] := by decide
  simp only [write_binary, h1, h2, h3, h4]

theorem recordBytes_length (s : PositionSample) : (recordBytes s).length = 8 := by
  simp [recordBytes, toLEBytes4]

theorem payloadBytes_length (df : List PositionSample) :
    (payloadBytes df).length = 8 * df.length := by
  induction df with
  | nil => simp [payloadBytes]
  | cons s rest ih =>
    simp only [payloadBytes, List.length_append, recordBytes_length, ih,
      List.length_cons]
    ring

theorem recordBytes_append_drop8 (s : PositionSample) (l : List Nat) :
    (recordBytes s ++ l).drop 8 = l := by
  rw [← recordBytes_length s, List.drop_left]

theorem recordBytes_append_take8 (s : PositionSample) (l : List Nat) :
    (recordBytes s ++ l).take 8 = recordBytes s := by
  rw [← recordBytes_length s, List.take_left]

theorem payloadBytes_drop (i : Nat) (df : List PositionSample) :
    (payloadBytes df).drop (8 * i) = payloadBytes (df.drop i) := by
  induction i generalizing df with
  | zero => simp
  | succ n ih =>
    cases df with
    | nil => simp [payloadBytes]
    | cons s rest =>
      have h8 : 8 * (n + 1) = 8 + 8 * n := by ring
      rw [h8, ← List.drop_drop]
      show ((recordBytes s ++ payloadBytes rest).drop 8).drop (8 * n) = _
      rw [recordBytes_append_drop8, ih, List.drop_succ_cons]

theorem payloadBytes_cons_take (s : PositionSample) (rest : List PositionSample) :
    (payloadBytes (s :: rest)).take 8 = recordBytes s := by
  show (recordBytes s ++ payloadBytes rest).take 8 = recordBytes s
  rw [← recordBytes_length s, List.take_left]

theorem parseRecords_payloadBytes (df : List PositionSample)
    (hwf : ∀ s ∈ df, s.azimuth < 4294967296 ∧ s.elevation < 4294967296) :
    parseRecords (payloadBytes df) = df := by
  induction df with
  | nil => rfl
  | cons s rest ih =>
    obtain ⟨az, el⟩ := s
    have haz : az < 4294967296 := (hwf ⟨az, el⟩ (by simp)).1
    have hel : el < 4294967296 := (hwf ⟨az, el⟩ (by simp)).2
    show parseRecords (recordBytes ⟨az, el⟩ ++ payloadBytes rest) = ⟨az, el⟩ :: rest
    simp only [recordBytes, toLEBytes4, List.cons_append, List.nil_append]
    rw [parseRecords]
    rw [ih (fun x hx => hwf x (by simp [hx]))]
    congr 1
    simp only [PositionSample.mk.injEq]
    constructor <;> omega

theorem int16OfBytes_toLEBytes2 (y : Int) (hy : -32768 ≤ y ∧ y ≤ 32767) :
    int16OfBytes ((y % 65536).toNat % 256) ((y % 65536).toNat / 256 % 256) = y := by
  have h0 : 0 ≤ y % 65536 := Int.emod_nonneg y (by norm_num)
  simp only [int16OfBytes]
  split <;> push_cast <;> omega

theorem int32OfBytes_toLEBytes4 (e : Nat) (he : e < 2147483648) :
    int32OfBytes (e % 256) (e / 256 % 256) (e / 65536 % 256) (e / 16777216 % 256) =
      (e : Int) := by
  simp only [int32OfBytes]
  split <;> push_cast <;> omega

theorem seriesTimes_length (tz : Timezone) (year : Int) :
    (seriesTimes tz year).length = numTimes tz year := by
  unfold seriesTimes
  rw [List.length_map, List.length_range]

theorem seriesTimes_getElem? (tz : Timezone) (year : Int) (k : Nat)
    (hk : k < numTimes tz year) :
    (seriesTimes tz year)[k]? = some (startUtc tz year + k) := by
  unfold seriesTimes
  rw [List.getElem?_map, List.getElem?_range hk]
  rfl

theorem mapSolar_const (s : PositionSample) (l : List Int) :
    mapSolar (fun _ => some s) l = some (List.replicate l.length s) := by
  induction l with
  | nil => rfl
  | cons t ts ih => simp [mapSolar, ih, List.replicate_succ]

theorem mapSolar_eq_none (g : Int → Option PositionSample) (l : List Int)
    (t : Int) (ht : t ∈ l) (hg : g t = none) :
    mapSolar g l = none := by
  induction l with
  | nil => cases ht
  | cons a ts ih =>
    rcases List.mem_cons.mp ht with h | h
    · subst h
      cases hM : mapSolar g ts <;> simp [mapSolar, hg, hM]
    · cases hga : g a <;> simp [mapSolar, hga, ih h]

theorem mapSolar_map (g : Int → Option PositionSample) (f : Int → PositionSample)
    (l : List Int) (h : ∀ t ∈ l, g t = some (f t)) :
    mapSolar g l = some (l.map f) := by
  induction l with
  | nil => rfl
  | cons a ts ih =>
    simp [mapSolar, h a (by simp), ih (fun t ht => h t (by simp [ht]))]

theorem wallIndexOf_eq (tz : Timezone) (t : Int) :
    wallIndexOf tz t = localMinute tz t := by
  unfold wallIndexOf dayOfYearOf minuteOfDayOf
  omega

theorem write_binary_drop16 (df : List PositionSample) (year : Int)
    (hy : -32768 ≤ year ∧ year ≤ 32767) :
    (write_binary df year).fileBytes.drop 16 = payloadBytes df := by
  rw [write_binary_eq df year hy]
  rfl

theorem write_binary_length (df : List PositionSample) (year : Int)
    (hy : -32768 ≤ year ∧ year ≤ 32767) :
    (write_binary df year).fileBytes.length = 16 + df.length * 8 := by
  rw [write_binary_eq df year hy]
  show (MAGIC ++ [1, 0] ++ toLEBytes2 ((year % 65536).toNat) ++
      toLEBytes4 (daysInYear year * MINUTES_PER_DAY) ++ [0, 0, 0, 0] ++
      payloadBytes df).length = 16 + df.length * 8
  simp only [List.length_append, List.length_cons, List.length_nil,
    payloadBytes_length, MAGIC, toLEBytes2, toLEBytes4]
  omega

theorem write_binary_year_oob (df : List PositionSample) (year : Int)
    (hy : year < -32768 ∨ 32767 < year) :
    write_binary df year = ⟨MAGIC ++ [1, 0], false, false⟩ := by
  have h1 : packInt16LE VERSION = some [1, 0] := by decide
  have h2 : packInt16LE year = none := by
    unfold packInt16LE
    rw [if_neg (by omega)]
  simp only [write_binary, h1, h2]

/-- C1: for every series and every int16-representable year,
`write_binary` writes exactly a 16-byte header: bytes 0–3 the ASCII magic
"SLRD" (= `[83, 76, 82, 68]`), bytes 4–5 the format version as a
little-endian int16 with value 1, bytes 6–7 the year as a little-endian
int16, bytes 8–11 the total-sample count `daysInYear(year) × 1440` as a
little-endian int32, bytes 12–15 a reserved little-endian int32 written
as zero; the payload starts exactly at byte 16. -/
theorem header_layout (df : List PositionSample) (year : Int)
    (hy : -32768 ≤ year ∧ year ≤ 32767) :
    (write_binary df year).completed = true ∧
    (write_binary df year).fileBytes.take 4 = [83, 76, 82, 68] ∧
    ((write_binary df year).fileBytes.drop 4).take 2 = [1, 0] ∧
    ((write_binary df year).fileBytes.drop 6).take 2 =
      toLEBytes2 ((year % 65536).toNat) ∧
    ((write_binary df year).fileBytes.drop 8).take 4 =
      toLEBytes4 (daysInYear year * 1440) ∧
    ((write_binary df year).fileBytes.drop 12).take 4 = [0, 0, 0, 0] ∧
    (write_binary df year).fileBytes.drop 16 = payloadBytes df := by
  rw [write_binary_eq df year hy]
  exact ⟨rfl, rfl, rfl, rfl, rfl, rfl, rfl⟩

theorem header_layout_witness :
    (write_binary [] 2024).completed = true ∧
    (write_binary [] 2024).fileBytes.take 4 = [83, 76, 82, 68] ∧
    ((write_binary [] 2024).fileBytes.drop 4).take 2 = [1, 0] ∧
    ((write_binary [] 2024).fileBytes.drop 6).take 2 =
      toLEBytes2 (((2024 : Int) % 65536).toNat) ∧
    ((write_binary [] 2024).fileBytes.drop 8).take 4 =
      toLEBytes4 (daysInYear 2024 * 1440) ∧
    ((write_binary [] 2024).fileBytes.drop 12).take 4 = [0, 0, 0, 0] ∧
    (write_binary [] 2024).fileBytes.drop 16 = payloadBytes [] :=
  header_layout [] 2024 (by norm_num)

/-- C2: the payload is one consecutive 8-byte record per sample in series
order, each record the sample's azimuth as a little-endian 32-bit float
immediately followed by its elevation as a little-endian 32-bit float
(floats modelled by their binary32 bit patterns), so sample `i` begins
at byte offset `16 + i × 8` and the file size is `16 + count × 8`. -/
theorem payload_layout (df : List PositionSample) (year : Int)
    (hy : -32768 ≤ year ∧ year ≤ 32767) (i : Nat) (hi : i < df.length) :
    (write_binary df year).fileBytes.length = 16 + df.length * 8 ∧
    ((write_binary df year).fileBytes.drop (16 + i * 8)).take 8 =
      toLEBytes4 df[i].azimuth ++ toLEBytes4 df[i].elevation := by
  refine ⟨write_binary_length df year hy, ?_⟩
  have h2 : i * 8 = 8 * i := by ring
  rw [← List.drop_drop, write_binary_drop16 df year hy, h2,
    payloadBytes_drop, List.drop_eq_getElem_cons hi]
  exact payloadBytes_cons_take df[i] _

theorem payload_layout_witness :
    (write_binary [⟨5, 9⟩] 2024).fileBytes.length = 16 + 1 * 8 ∧
    ((write_binary [⟨5, 9⟩] 2024).fileBytes.drop (16 + 0 * 8)).take 8 =
      toLEBytes4 5 ++ toLEBytes4 9 :=
  payload_layout [⟨5, 9⟩] 2024 (by norm_num) 0 (by norm_num)

/-- C5: when the series length differs from `daysInYear(year) × 1440` the
writer reports the size mismatch (the warning) but still writes the whole
file containing the actual series — `16 + actual × 8` bytes — while the
header's total-sample count field holds the expected value derived from
the year, not the actual count. -/
theorem size_mismatch_behavior (df : List PositionSample) (year : Int)
    (hy : -32768 ≤ year ∧ year ≤ 32767)
    (hne : df.length ≠ daysInYear year * 1440) :
    (write_binary df year).warned = true ∧
    (write_binary df year).completed = true ∧
    (write_binary df year).fileBytes.length = 16 + df.length * 8 ∧
    ((write_binary df year).fileBytes.drop 8).take 4 =
      toLEBytes4 (daysInYear year * 1440) ∧
    (write_binary df year).fileBytes.drop 16 = payloadBytes df := by
  refine ⟨?_, ?_, write_binary_length df year hy, ?_, write_binary_drop16 df year hy⟩
  · rw [write_binary_eq df year hy]
    exact bne_iff_ne.mpr hne
  · rw [write_binary_eq df year hy]
  · rw [write_binary_eq df year hy]
    rfl

theorem size_mismatch_behavior_witness :
    (write_binary [] 2024).warned = true ∧
    (write_binary [] 2024).completed = true ∧
    (write_binary [] 2024).fileBytes.length = 16 + ([] : List PositionSample).length * 8 ∧
    ((write_binary [] 2024).fileBytes.drop 8).take 4 =
      toLEBytes4 (daysInYear 2024 * 1440) ∧
    (write_binary [] 2024).fileBytes.drop 16 = payloadBytes [] :=
  size_mismatch_behavior [] 2024 (by norm_num) (by decide)

/-- C8 counterexample: the writer opens the final output path directly;
at year 70000 the year pack raises after the magic and version bytes are
already written, so the failed run leaves a 6-byte partial file at the
final path — there is no write-to-temporary-then-rename discipline and a
reader can observe a partial file there. -/
theorem atomic_publish_cex :
    (write_binary [] 70000).completed = false ∧
    (write_binary [] 70000).fileBytes = [83, 76, 82, 68, 1, 0] ∧
    (write_binary [] 70000).fileBytes ≠ [] := by
  refine ⟨?_, ?_, ?_⟩ <;> decide

/-- C8 amended: `write_binary` writes directly to the final path; a run
that fails mid-write (year outside the int16 range) leaves a partially
written 6-byte file (magic + version) at the final path rather than
leaving the path absent. -/
theorem failed_write_leaves_bytes (df : List PositionSample) (year : Int)
    (hy : year < -32768 ∨ 32767 < year) :
    (write_binary df year).completed = false ∧
    (write_binary df year).fileBytes = MAGIC ++ [1, 0] ∧
    (write_binary df year).fileBytes ≠ [] := by
  rw [write_binary_year_oob df year hy]
  exact ⟨rfl, rfl, by decide⟩

theorem failed_write_leaves_bytes_witness :
    (write_binary [⟨0, 0⟩] (-40000)).completed = false ∧
    (write_binary [⟨0, 0⟩] (-40000)).fileBytes = MAGIC ++ [1, 0] ∧
    (write_binary [⟨0, 0⟩] (-40000)).fileBytes ≠ [] :=
  failed_write_leaves_bytes [⟨0, 0⟩] (-40000) (Or.inl (by norm_num))

/-- C10: the year header field is packed as a signed little-endian 16-bit
integer: every 4-digit year (1000..9999) is written without error and
without wrapping (bytes 6–7 are the year's own little-endian bytes),
while a year outside [−32768, 32767] raises a packing error — the write
stops at the 6 bytes before the year field, and no file with a wrapped
year value is produced. -/
theorem year_packing (df : List PositionSample) (year : Int) :
    (1000 ≤ year ∧ year ≤ 9999 →
      (write_binary df year).completed = true ∧
      ((write_binary df year).fileBytes.drop 6).take 2 =
        [year.toNat % 256, year.toNat / 256 % 256]) ∧
    (year < -32768 ∨ 32767 < year →
      (write_binary df year).completed = false ∧
      (write_binary df year).fileBytes = MAGIC ++ [1, 0]) := by
  constructor
  · intro h
    rw [write_binary_eq df year ⟨by omega, by omega⟩]
    have hmod : year % 65536 = year := Int.emod_eq_of_lt (by omega) (by omega)
    refine ⟨rfl, ?_⟩
    show toLEBytes2 ((year % 65536).toNat) = _
    rw [hmod]
    rfl
  · intro h
    rw [write_binary_year_oob df year h]
    exact ⟨rfl, rfl⟩

theorem year_packing_witness :
    ((write_binary [] 2024).completed = true ∧
      ((write_binary [] 2024).fileBytes.drop 6).take 2 =
        [(2024 : Int).toNat % 256, (2024 : Int).toNat / 256 % 256]) ∧
    ((write_binary [] 70000).completed = false ∧
      (write_binary [] 70000).fileBytes = MAGIC ++ [1, 0]) :=
  ⟨(year_packing [] 2024).1 (by norm_num),
   (year_packing [] 70000).2 (by norm_num)⟩

theorem decode_shaped (v0 v1 y0 y1 c0 c1 c2 c3 r0 r1 r2 r3 : Nat)
    (payload : List Nat)
    (hv : int16OfBytes v0 v1 = 1)
    (hlen8 : payload.length % 8 = 0)
    (hcnt : (payload.length : Int) = int32OfBytes c0 c1 c2 c3 * 8) :
    decode (83 :: 76 :: 82 :: 68 :: v0 :: v1 :: y0 :: y1 :: c0 :: c1 :: c2 :: c3 ::
        r0 :: r1 :: r2 :: r3 :: payload) =
      Except.ok (⟨1, int16OfBytes y0 y1, int32OfBytes c0 c1 c2 c3⟩,
        parseRecords payload) := by
  simp only [decode]
  rw [if_neg (by decide : ¬([83, 76, 82, 68] ≠ MAGIC))]
  rw [hv]
  rw [if_neg (by norm_num : ¬((1 : Int) ≠ 1))]
  rw [if_neg (by push_neg; exact ⟨hlen8, hcnt⟩)]

/-- C9: decoding the byte stream produced by the writer yields back every
sample's azimuth and elevation bit-exactly at float32 precision: for a
series of the generate contract's expected length (and an
int16-representable year, all bit patterns 32-bit), decode of the
written bytes succeeds and returns exactly the original bit patterns at
their original indices — nothing further is lost on re-encoding. -/
theorem encode_decode_roundtrip (df : List PositionSample) (year : Int)
    (hy : -32768 ≤ year ∧ year ≤ 32767)
    (hlen : df.length = daysInYear year * 1440)
    (hwf : ∀ s ∈ df, s.azimuth < 4294967296 ∧ s.elevation < 4294967296) :
    decode (write_binary df year).fileBytes =
      Except.ok (⟨1, year, ((daysInYear year * 1440 : Nat) : Int)⟩, df) := by
  have he : daysInYear year * MINUTES_PER_DAY < 2147483648 := by
    rcases daysInYear_eq year with h | h <;> rw [h] <;> norm_num [MINUTES_PER_DAY]
  rw [write_binary_eq df year hy]
  show decode (83 :: 76 :: 82 :: 68 :: 1 :: 0 ::
      ((year % 65536).toNat % 256) :: ((year % 65536).toNat / 256 % 256) ::
      (daysInYear year * MINUTES_PER_DAY % 256) ::
      (daysInYear year * MINUTES_PER_DAY / 256 % 256) ::
      (daysInYear year * MINUTES_PER_DAY / 65536 % 256) ::
      (daysInYear year * MINUTES_PER_DAY / 16777216 % 256) ::
      0 :: 0 :: 0 :: 0 :: payloadBytes df) = _
  rw [decode_shaped _ _ _ _ _ _ _ _ _ _ _ _ _ (by decide)
    (by rw [payloadBytes_length]; omega)
    (by rw [payloadBytes_length, int32OfBytes_toLEBytes4 _ he, hlen]
        push_cast [MINUTES_PER_DAY]
        ring)]
  rw [int16OfBytes_toLEBytes2 year hy, int32OfBytes_toLEBytes4 _ he,
    parseRecords_payloadBytes df hwf]
  rfl

theorem encode_decode_roundtrip_witness :
    decode (write_binary (List.replicate 527040 ⟨7, 11⟩) 2024).fileBytes =
      Except.ok (⟨1, 2024, ((daysInYear 2024 * 1440 : Nat) : Int)⟩,
        List.replicate 527040 ⟨7, 11⟩) :=
  encode_decode_roundtrip (List.replicate 527040 ⟨7, 11⟩) 2024 (by norm_num)
    (by rw [List.length_replicate]; decide)
    (by intro s hs
        rw [List.eq_of_mem_replicate hs]
        exact ⟨by norm_num, by norm_num⟩)

/-- C3 counterexample: with the America/New_York 2025 rules the samples
at positions 439220 and 439280 of the generated series are the two
distinct absolute instants 439520 (01:20 EDT) and 439580 (01:20 EST) of
the fall-back day, and both carry the same wall-clock index
`(dayOfYear − 1) × 1440 + minuteOfDay` — so the series is not strictly
ordered by that index: it has a duplicate index. -/
theorem wall_index_duplicate_cex :
    (seriesTimes nyTz2025 2025)[439220]? = some 439520 ∧
    (seriesTimes nyTz2025 2025)[439280]? = some 439580 ∧
    wallIndexOf nyTz2025 439520 = wallIndexOf nyTz2025 439580 := by
  refine ⟨?_, ?_, by decide⟩
  · rw [seriesTimes_getElem? nyTz2025 2025 439220 (by decide)]
    decide
  · rw [seriesTimes_getElem? nyTz2025 2025 439280 (by decide)]
    decide

/-- C3 amended: the series length equals `daysInYear(year) × 1440`
whenever the timezone's localization preserves the year's span (its UTC
offset at the start and end instants agrees — true for any real zone
whose Jan 1 and Dec 31 share an offset); the samples are strictly one
per absolute minute (sample k is instant start + k, strictly
increasing); and when the timezone keeps a single fixed offset all year
the wall-clock index of sample k is exactly k — no gaps, duplicates or
reordering.  Under a DST transition the wall-clock index law fails (see
the counterexample). -/
theorem series_length_and_order (tz : Timezone) (year : Int)
    (hspan : tz.utcOfWall (wallEnd year) - tz.utcOfWall 0 = wallEnd year) :
    numTimes tz year = daysInYear year * 1440 ∧
    (∀ k : Nat, k < numTimes tz year →
      (seriesTimes tz year)[k]? = some (startUtc tz year + k)) ∧
    (∀ c : Int, (∀ t, tz.offsetAt t = c) → tz.utcOfWall 0 = -c →
      ∀ k : Nat, k < numTimes tz year →
        wallIndexOf tz (startUtc tz year + k) = k) := by
  refine ⟨?_, fun k hk => seriesTimes_getElem? tz year k hk, ?_⟩
  · unfold numTimes stopUtc startUtc
    unfold wallEnd at hspan ⊢
    omega
  · intro c hc h0 k hk
    rw [wallIndexOf_eq]
    unfold localMinute startUtc
    rw [hc, h0]
    omega

theorem series_length_and_order_witness :
    numTimes tzUTC 2024 = daysInYear 2024 * 1440 ∧
    (seriesTimes tzUTC 2024)[7]? = some (startUtc tzUTC 2024 + (7 : Nat)) ∧
    wallIndexOf tzUTC (startUtc tzUTC 2024 + (7 : Nat)) = (7 : Nat) := by
  have h := series_length_and_order tzUTC 2024 (by simp [tzUTC])
  exact ⟨h.1, h.2.1 7 (by decide), h.2.2 0 (fun t => rfl) (by decide) 7 (by decide)⟩

/-- C4 counterexample: under the America/New_York 2025 rules the local
wall-clock minute 02:30 of March 9, 2025 (wall-clock index 96630), a
minute skipped by the spring-forward transition, is the local time of no
generated sample at all — nonexistent local minutes are not "resolved by
shifting forward to the first valid instant"; the transition day holds
only 1380 samples, not 1440. -/
theorem skipped_minute_has_no_sample_cex :
    ¬ ((96630 : Int) ∈ (seriesTimes nyTz2025 2025).map (localMinute nyTz2025)) := by
  intro hmem
  rw [List.mem_map] at hmem
  obtain ⟨t, ht, hloc⟩ := hmem
  rw [seriesTimes, List.mem_map] at ht
  obtain ⟨k, hk, rfl⟩ := ht
  rw [List.mem_range] at hk
  norm_num [localMinute, nyTz2025, startUtc] at hloc
  split at hloc <;> omega

/-- C4 amended: the generator enumerates uniformly spaced absolute
instants, so a local wall-clock minute appears in the series exactly
when some absolute instant between the localized start and end maps to
it under the timezone's offset rule.  Local minutes skipped by a DST
spring-forward have no such instant and receive no sample (no
shift-forward resolution); ambiguous fall-back minutes have two, so a
transition day does not hold exactly 1440 samples. -/
theorem wall_minute_sample_iff (tz : Timezone) (year : Int) (w : Int)
    (hord : startUtc tz year ≤ stopUtc tz year) :
    (w ∈ (seriesTimes tz year).map (localMinute tz)) ↔
      (∃ t : Int, startUtc tz year ≤ t ∧ t ≤ stopUtc tz year ∧
        localMinute tz t = w) := by
  rw [List.mem_map]
  constructor
  · rintro ⟨t, ht, hw⟩
    rw [seriesTimes, List.mem_map] at ht
    obtain ⟨k, hk, rfl⟩ := ht
    rw [List.mem_range] at hk
    unfold numTimes at hk
    exact ⟨startUtc tz year + k, by omega, by omega, hw⟩
  · rintro ⟨t, h1, h2, hw⟩
    refine ⟨t, ?_, hw⟩
    rw [seriesTimes, List.mem_map]
    refine ⟨(t - startUtc tz year).toNat, ?_, by omega⟩
    rw [List.mem_range]
    unfold numTimes
    omega

theorem wall_minute_sample_iff_witness :
    (10 : Int) ∈ (seriesTimes tzUTC 2024).map (localMinute tzUTC) :=
  (wall_minute_sample_iff tzUTC 2024 10 (by decide)).mpr
    ⟨10, by decide, by decide, by decide⟩

/-- Bit pattern of the IEEE-754 binary32 quiet NaN `0x7FC00000`. -/
def nanW : Nat := 2143289344

/-- A 32-bit word is an IEEE-754 binary32 NaN: exponent bits all ones
and mantissa nonzero. -/
def isNaN32 (w : Nat) : Bool :=
  w / 8388608 % 256 == 255 && w % 8388608 != 0

/-- A position function that returns a NaN pair for every instant. -/
def nanPosFn : ℚ → ℚ → ℚ → Int → Option PositionSample :=
  fun _ _ _ _ => some ⟨nanW, nanW⟩

theorem runJob_eq_of_compute (posFn : ℚ → ℚ → ℚ → Int → Option PositionSample)
    (lat lon alt : ℚ) (tz : Timezone) (year : Int) (df : List PositionSample)
    (hc : compute_solar_positions posFn lat lon alt tz year = some df) :
    runJob posFn lat lon alt tz year = some (write_binary df year) := by
  unfold runJob
  rw [hc]

/-- C6 counterexample: when the external position function returns a
non-finite value (the NaN bit pattern 0x7FC00000) for every instant, the
run does not fail with a ComputationError: the whole (Manhattan-like,
2025) job succeeds, the writer completes, and record 0 of the written
file holds the NaN bit pattern verbatim — the code performs no
finiteness validation. -/
theorem nan_written_verbatim_cex :
    isNaN32 nanW = true ∧
    runJob nanPosFn 40 (-73) 33 nyTz2025 2025 =
      some (write_binary (List.replicate 525600 ⟨nanW, nanW⟩) 2025) ∧
    (write_binary (List.replicate 525600 (⟨nanW, nanW⟩ : PositionSample))
        2025).completed = true ∧
    ((write_binary (List.replicate 525600 (⟨nanW, nanW⟩ : PositionSample))
        2025).fileBytes.drop 16).take 8 = toLEBytes4 nanW ++ toLEBytes4 nanW := by
  have hnum : numTimes nyTz2025 2025 = 525600 := by decide
  have hc : compute_solar_positions nanPosFn 40 (-73) 33 nyTz2025 2025 =
      some (List.replicate 525600 ⟨nanW, nanW⟩) := by
    unfold compute_solar_positions nanPosFn
    rw [mapSolar_const ⟨nanW, nanW⟩ (seriesTimes nyTz2025 2025),
      seriesTimes_length, hnum]
  refine ⟨by decide, ?_, ?_, ?_⟩
  · exact runJob_eq_of_compute nanPosFn 40 (-73) 33 nyTz2025 2025 _ hc
  · rw [write_binary_eq _ 2025 (by norm_num)]
  · rw [write_binary_drop16 _ 2025 (by norm_num)]
    rw [show (525600 : Nat) = 525599 + 1 from rfl, List.replicate_succ]
    exact payloadBytes_cons_take ⟨nanW, nanW⟩ _

/-- C6 amended: if the external position function raises an error on any
generated instant, the whole computation aborts with no result and the
job writes no file; but a non-finite *value* returned by the position
function is not detected — it flows into the written file verbatim (see
the counterexample). -/
theorem posfn_error_aborts_job (posFn : ℚ → ℚ → ℚ → Int → Option PositionSample)
    (lat lon alt : ℚ) (tz : Timezone) (year : Int) (t : Int)
    (ht : t ∈ seriesTimes tz year)
    (herr : posFn lat lon alt t = none) :
    compute_solar_positions posFn lat lon alt tz year = none ∧
    runJob posFn lat lon alt tz year = none := by
  have hc : compute_solar_positions posFn lat lon alt tz year = none :=
    mapSolar_eq_none _ _ t ht herr
  refine ⟨hc, ?_⟩
  unfold runJob
  rw [hc]

/-- A position function that raises on every instant. -/
def noneFn : ℚ → ℚ → ℚ → Int → Option PositionSample :=
  fun _ _ _ _ => none

theorem posfn_error_aborts_job_witness :
    compute_solar_positions noneFn 0 0 0 tzOne 2024 = none ∧
    runJob noneFn 0 0 0 tzOne 2024 = none :=
  posfn_error_aborts_job noneFn 0 0 0 tzOne 2024 0 (by decide) rfl

/-- C7 counterexample: latitude 200 lies outside −90..90, yet generation
fails with no InvalidLocation and does not abort before the position
computation: with a position function answering every instant,
`compute_solar_positions` invokes it and succeeds, returning its
answers. -/
theorem no_invalid_location_cex :
    ((90 : ℚ) < 200) ∧
    compute_solar_positions (fun _ _ _ _ => some ⟨1, 2⟩) 200 0 0 tzOne 2024 =
      some [⟨1, 2⟩] := by
  exact ⟨by norm_num, by decide⟩

/-- C7 amended: `compute_solar_positions` performs no validation of
latitude, longitude or altitude: any values whatsoever — inside or
outside the physical ranges — are forwarded to the external position
function, and whenever that function answers every instant the
generation succeeds with its answers. -/
theorem no_location_validation (posFn : ℚ → ℚ → ℚ → Int → Option PositionSample)
    (lat lon alt : ℚ) (tz : Timezone) (year : Int) (f : Int → PositionSample)
    (h : ∀ t, posFn lat lon alt t = some (f t)) :
    compute_solar_positions posFn lat lon alt tz year =
      some ((seriesTimes tz year).map f) := by
  unfold compute_solar_positions
  exact mapSolar_map _ f _ (fun t _ => h t)

theorem no_location_validation_witness :
    compute_solar_positions (fun _ _ _ _ => some ⟨3, 4⟩) 200 (-500) (-10000)
        tzOne 2024 =
      some ((seriesTimes tzOne 2024).map (fun _ => ⟨3, 4⟩)) :=
  no_location_validation _ 200 (-500) (-10000) tzOne 2024
    (fun _ => ⟨3, 4⟩) (fun _ => rfl)

end SunPath
